import Mathlib

/-!
Verification development for the sashimono host agent: a shallow embedding of
the lifecycle daemon (`hp_manager.cpp`, `comm_handler.cpp`) and the
message-board reconciler (the JS `MessageBoard` class), with theorems settling
the specification claims about acquire/extend handling, the transaction queue,
the orphan pruner, the halt detector, socket framing, and port allocation.
-/

namespace Sashimono

/-- Lease status values (`LeaseStatus` object in the reconciler source). -/
inductive LeaseStatus
  | Acquiring
  | Acquired
  | Failed
  | Destroyed
  | Burned
  | SashiTimeout
  | Extended
deriving DecidableEq, Repr

/-! ## Socket framing (`comm_handler.cpp`)

`comm::send` allocates an 8-byte stack buffer, fills its first four bytes
with the big-endian message length via `comm::uint32_to_bytes`, and writes
all 8 bytes to the socket.  The last four bytes of the stack buffer are
never written, so the bytes sent there are whatever the buffer held
(indeterminate stack contents), modelled here as an explicit `junk`
valuation of the initial buffer contents.
-/

namespace Comm

/-- `comm::DEFAULT_MAX_MSG_SIZE = 1 * 1024 * 1024` (declared, never used by the
read path). -/
def DEFAULT_MAX_MSG_SIZE : Nat := 1 * 1024 * 1024

/-- `comm::BUFFER_SIZE = 4096`, the size of the global `read_buffer`. -/
def BUFFER_SIZE : Nat := 4096

/-- `comm::uint32_to_bytes`: big-endian byte decomposition of a `uint32_t`.
The C++ call site passes `message.length()` (a `size_t`), implicitly
truncated to 32 bits, hence the `% 2^32`. -/
def uint32_to_bytes (x : Nat) : List Nat :=
  [(x % 2 ^ 32) / 2 ^ 24 % 256, (x % 2 ^ 32) / 2 ^ 16 % 256,
   (x % 2 ^ 32) / 2 ^ 8 % 256, (x % 2 ^ 32) % 256]

/-- The 8 header bytes written by `comm::send`: bytes 0..3 are produced by
`uint32_to_bytes`, bytes 4..7 keep the initial (uninitialized) buffer
contents `junk`. -/
def sendHeader (junk : Fin 8 → Nat) (msgLen : Nat) : List Nat :=
  uint32_to_bytes msgLen ++ [junk 4, junk 5, junk 6, junk 7]

/-- `comm::read_socket` issues one `read` of at most `BUFFER_SIZE` bytes on
the `SOCK_SEQPACKET` socket; a packet longer than the buffer is truncated
to `BUFFER_SIZE` bytes (the remainder of the packet is discarded).
Returns the number of bytes delivered for an inbound packet of `msgLen`
bytes. -/
def read_socket (msgLen : Nat) : Nat :=
  min msgLen BUFFER_SIZE

end Comm

/-! ## Extend handler (`MessageBoard.handleExtendLease`)

The handler validates destination and token ownership, computes
`extendingMoments = Math.floor(amount / leaseAmount)`, throws when that is
`< 1`, and otherwise advances the matching expiry entry and persists
`status = Extended, life_moments += extendingMoments`.  Any throw lands in
the catch block which enqueues `extendError`; nothing before the throw
points mutates the lease row or the expiry list.
-/

namespace Extend

/-- The slice of a ledger URI token the extend handler consults. -/
structure UriToken where
  owner : String
  /-- lease amount decoded from the token URI -/
  leaseAmount : Rat
deriving DecidableEq, Repr

/-- Inputs of one extend event, as destructured at the top of
`handleExtendLease` (`r.transaction.Destination`, `r.uriTokenId`,
`r.tenant`, `r.payment`). -/
structure ExtendEvent where
  destination : String
  tenant : String
  payment : Rat
deriving DecidableEq, Repr

/-- The environment the handler reads: the configured agent address, the
token returned by `getLeaseByIndex`, the matching lease row in
`Acquired`/`Extended` status (with its `life_moments`), and whether the
in-memory expiry list holds an entry for the instance. -/
structure ExtendEnv where
  cfgAddress : String
  uriToken : Option UriToken
  leaseRow : Option Nat
  expiryItemPresent : Bool
deriving DecidableEq, Repr

/-- Result of one extend event: on success the new `life_moments`, the
number of extension moments applied to the expiry entry, and no error; on
failure `extendError` is enqueued and no field of the state changed. -/
structure ExtendResult where
  success : Bool
  errorEnqueued : Bool
  /-- `some m` iff the lease row was rewritten with `life_moments = m`
  and `status = Extended` -/
  newLifeMoments : Option Nat
  /-- `some k` iff the expiry entry was advanced by `k` moments -/
  extendedMoments : Option Int
deriving DecidableEq, Repr

/-- The unchanged-state failure outcome (the catch block of the handler). -/
def extendError : ExtendResult :=
  { success := false, errorEnqueued := true, newLifeMoments := none, extendedMoments := none }

/-- Shallow embedding of `handleExtendLease`.  Mirrors the source order of
validations: destination, token lookup and ownership, `leaseAmount <= 0`,
`extendingMoments < 1`, lease-row lookup, expiry-entry lookup. -/
def handleExtendLease (env : ExtendEnv) (r : ExtendEvent) : ExtendResult :=
  if r.destination ≠ env.cfgAddress then extendError
  else
    match env.uriToken with
    | none => extendError
    | some tok =>
      if tok.owner ≠ r.tenant then extendError
      else if tok.leaseAmount ≤ 0 then extendError
      else
        let extendingMoments : Int := ⌊r.payment / tok.leaseAmount⌋
        if extendingMoments < 1 then extendError
        else
          match env.leaseRow with
          | none => extendError
          | some lifeMoments =>
            if env.expiryItemPresent then
              { success := true, errorEnqueued := false,
                newLifeMoments := some (lifeMoments + extendingMoments.toNat),
                extendedMoments := some extendingMoments }
            else extendError

end Extend

/-! ## Transaction queue (`MessageBoard.#processConcurrencyQueue`)

The drain walks the queue in order.  A successful callback clears the
fee-uplift state.  A failed callback with remaining attempts increments
`attempts` and, when the configured `affordableExtraFee` is positive and
the failure status is `"TOOK_LONG"`, sets
`feeUpliftment = Math.floor(affordableExtraFee * attempts / maxAttempts)`
which `#prepareHostClientFunctionOptions` then applies to subsequent
submissions.
-/

namespace Queue

/-- The outcome of invoking one queued callback. -/
inductive ActionResult
  | success
  | failure (tookLong : Bool)
deriving DecidableEq, Repr

/-- The retry bookkeeping of one queue entry (`attempts`, `maxAttempts`,
`delay` as pushed by `#queueAction`). -/
structure QAction where
  attempts : Nat
  maxAttempts : Nat
  delay : Nat
deriving DecidableEq, Repr

/-- The fee-uplift state of the board (`#applyFeeUpliftment`,
`#feeUpliftment`). -/
structure UpliftState where
  applyFeeUpliftment : Bool
  feeUpliftment : Int
deriving DecidableEq, Repr

/-- `#prepareHostClientFunctionOptions`: the fee uplift attached to a
submission, `none` when no uplift applies. -/
def prepareOptions (s : UpliftState) : Option Int :=
  if s.applyFeeUpliftment then some s.feeUpliftment else none

/-- One iteration of the drain loop for action `a` with outcome `res`:
returns the updated uplift state, the action as it is kept for retry
(`none` when dropped), and the action with its possibly incremented attempt
counter. -/
def processAction (affordableExtraFee : Rat) (s : UpliftState) (a : QAction)
    (res : ActionResult) : UpliftState × Option QAction :=
  match res with
  | .success => ({ applyFeeUpliftment := false, feeUpliftment := 0 }, none)
  | .failure tookLong =>
    if a.attempts < a.maxAttempts then
      let a1 : QAction := { a with attempts := a.attempts + 1 }
      let s1 : UpliftState :=
        if 0 < affordableExtraFee ∧ tookLong then
          { applyFeeUpliftment := true,
            feeUpliftment := ⌊affordableExtraFee * a1.attempts / a1.maxAttempts⌋ }
        else s
      (s1, some a1)
    else (s, none)

/-- The whole drain: fold `processAction` over the queue contents paired
with the outcome of each callback. -/
def processConcurrencyQueue (affordableExtraFee : Rat) (s : UpliftState)
    (q : List (QAction × ActionResult)) : UpliftState × List QAction :=
  match q with
  | [] => (s, [])
  | (a, res) :: rest =>
    let (s1, kept) := processAction affordableExtraFee s a res
    let (s2, keptRest) := processConcurrencyQueue affordableExtraFee s1 rest
    (s2, (kept.toList) ++ keptRest)

end Queue

/-! ## Queued-callback idempotence (`recreateLeaseOffer`, `#expireInstance`)

Every callback handed to `#queueAction` re-checks, before a guarded ledger
submission, whether the transaction hash recorded in its `submissionRefs`
is already reported by the ledger as validated with code `"tesSUCCESS"`;
if so that submission is skipped.  `recreateLeaseOffer` guards its
`expireLease` with `refs[0]`, but its `offerLease` is invoked WITHOUT a
submission ref (source comment: two transactions in one action), so
`refs[1]` never records a hash, the second validated-hash check always
reads an absent hash, and the offer is re-submitted on every retry that
finds the row `Burned`.  The queued action of `#expireInstance` guards its
single `updateRegInfo`.
-/

namespace Idempotence

/-- A ledger-bound transaction submission made by a queued callback. -/
inductive Submission
  | expireLease (tokenId : String)
  | offerLease (leaseIndex : Nat) (amount : Rat)
  | updateRegInfo (activeCount : Int)
deriving DecidableEq, Repr

/-- The validated-tx-hash check: a ref holding hash `h` passes when
`getTransactionValidatedResults h` returns a result with code
`"tesSUCCESS"`.  `ledger` maps a hash to the validated result code, `none`
when the ledger has no validated result for it. -/
def validatedSuccess (ledger : String → Option String) : Option String → Bool
  | some h => ledger h == some "tesSUCCESS"
  | none => false

/-- The statuses on which `recreateLeaseOffer` burns the token before
re-offering. -/
def burnableStatus : Option LeaseStatus → Prop
  | some s => s = .Destroyed ∨ s = .Failed ∨ s = .SashiTimeout
  | none => False

instance (s : Option LeaseStatus) : Decidable (burnableStatus s) := by
  cases s with
  | none => exact .isFalse id
  | some s => exact inferInstanceAs (Decidable (_ ∨ _))

/-- Shallow embedding of the callback queued by
`MessageBoard.recreateLeaseOffer`: returns the list of ledger submissions
it performs and the resulting status of the lease row (`none` when the row
has been hard-deleted).  `ref0` is the tx hash recorded in
`submissionRefs.refs[0]` by an earlier `expireLease` submission.  The
`offerLease` call passes no submission ref, so `refs[1]` is never
populated: the second check reads an absent hash (`validatedSuccess` of
`none`) and its retry flag is always true, exactly as in the source. -/
def recreateOfferCallback (ledger : String → Option String)
    (ref0 : Option String) (noLeaseRecord : Bool)
    (tokenId : String) (leaseIndex : Nat) (leaseAmount : Rat)
    (status : Option LeaseStatus) : List Submission × Option LeaseStatus :=
  let retry0 := !validatedSuccess ledger ref0
  let burn := retry0 ∧ (noLeaseRecord = true ∨ burnableStatus status)
  let subs1 : List Submission := if burn then [.expireLease tokenId] else []
  let status1 : Option LeaseStatus :=
    if burn ∧ noLeaseRecord = false then some .Burned else status
  -- `refs[1]` holds no hash: `txHash2` is always undefined in the program
  let retry1 := !validatedSuccess ledger none
  let offer := retry1 ∧ (noLeaseRecord = true ∨ status1 = some .Burned)
  let subs2 : List Submission := if offer then [.offerLease leaseIndex leaseAmount] else []
  let status2 : Option LeaseStatus :=
    if offer ∧ noLeaseRecord = false then none else status1
  (subs1 ++ subs2, status2)

/-- Shallow embedding of the callback queued at the end of
`MessageBoard.#expireInstance`: skip when the recorded hash is validated
and successful, otherwise submit `updateRegInfo` with the active-instance
count. -/
def expireInstanceCallback (ledger : String → Option String)
    (ref0 : Option String) (activeInstanceCount : Int) : List Submission :=
  if validatedSuccess ledger ref0 then [] else [.updateRegInfo activeInstanceCount]

end Idempotence

/-! ## Orphan pruner (`MessageBoard.#pruneOrphanLeases`)

Two passes: (1) over daemon instances older than the cutoff, (2) over
lease rows.  Both are embedded as per-item decision functions from the
inputs the loop body reads (the status of the matching lease row, the owner
of the URIToken as returned by `getLeaseByIndex`, and — for nameless instances —
whether the name matches the 64-hex-char lease-id pattern) to the set of
effects the body performs.
-/

namespace Prune

/-- Effects the pruner performs for one orphan. -/
structure PruneOutcome where
  /-- `sashiCli.destroyInstance` is invoked -/
  destroyed : Bool
  /-- the lease row is set to `Destroyed` -/
  markedDestroyed : Bool
  /-- `recreateLeaseOffer` is invoked (burn + re-offer of the slot) -/
  reoffered : Bool
  /-- an action that submits `refundTenant` is enqueued -/
  refundEnqueued : Bool
  /-- the lease row is hard-deleted by the loop body itself -/
  recordDeleted : Bool
deriving DecidableEq, Repr

/-- The all-false outcome (body skips the item). -/
def skip : PruneOutcome :=
  { destroyed := false, markedDestroyed := false, reoffered := false,
    refundEnqueued := false, recordDeleted := false }

/-- Loop body of the orphan-instance pass, for one instance older than the
cutoff.  `leaseStatus` is the status of the matching lease row (`none`
when no row matches the instance name), `tokenOwner` the owner of the
URIToken keyed by the instance name (`none` when the token does not
exist), `nameMatchesHex` whether the name matches `LEASE_ID_REG_EXP`. -/
def pruneOrphanInstance (hostAddr : String) (leaseStatus : Option LeaseStatus)
    (tokenOwner : Option String) (nameMatchesHex : Bool) : PruneOutcome :=
  match leaseStatus with
  | some st =>
    if st = .Acquiring ∨ st = .Destroyed ∨ tokenOwner = none ∨ tokenOwner = some hostAddr then
      if tokenOwner ≠ none ∧ tokenOwner ≠ some hostAddr then
        { destroyed := true, markedDestroyed := true, reoffered := true,
          refundEnqueued := true, recordDeleted := false }
      else
        { destroyed := true, markedDestroyed := true, reoffered := false,
          refundEnqueued := false, recordDeleted := true }
    else skip
  | none =>
    if nameMatchesHex then { skip with destroyed := true } else skip

/-- Predicate for membership in the filter of the orphan-lease pass: terminal
(`Destroyed`/`Burned`) rows, or non-terminal rows that are old enough (or
`Acquiring` rows seen at startup). -/
def leaseOrphanFilter (isStartup : Bool) (old : Bool) (st : LeaseStatus) : Prop :=
  st = .Destroyed ∨ st = .Burned ∨
    (((isStartup = true ∧ st = .Acquiring) ∨ old = true) ∧
      (st = .Acquiring ∨ st = .Acquired ∨ st = .Extended))

instance (b o : Bool) (st : LeaseStatus) : Decidable (leaseOrphanFilter b o st) :=
  inferInstanceAs (Decidable (_ ∨ _))

/-- Loop body of the orphan-lease pass, for one filtered lease with no
backing instance.  The refund inside the queued callback is conditional on
the captured lease status having been `Acquiring`. -/
def pruneOrphanLease (hostAddr : String) (st : LeaseStatus)
    (tokenOwner : Option String) : PruneOutcome :=
  let marked := st ≠ .Burned
  if tokenOwner ≠ none ∧ tokenOwner ≠ some hostAddr then
    { destroyed := false, markedDestroyed := marked, reoffered := true,
      refundEnqueued := st = .Acquiring, recordDeleted := false }
  else
    { destroyed := false, markedDestroyed := marked, reoffered := false,
      refundEnqueued := false, recordDeleted := true }

end Prune

/-! ## Ledger halt detector (`MessageBoard.#checkLedgersForHalt`)

State variables of the class: `lastLedgerTime` (updated by the ledger
event handler), `#xrplHalted`, `#lastHaltedTime`, and `#graceTimeoutRef`.
The latter is modelled as the absolute time at which the scheduled
`setTimeout` fires.  Times are integer milliseconds, as in the source
(which reads `getCurrentUnixTime` with unit milli); the grace deadline
`now + elapsed * 0.25` is stored scaled by 4 (quarter-milliseconds), so
the multiplication by `#graceThreshold = 0.25` stays exact over the
integers: the timer at quarter-ms deadline `d` fires at ms time `t` iff
`d <= 4 * t`.
-/

namespace Halt

/-- `#graceThreshold = 0.25`. -/
def graceThreshold : Rat := 1 / 4

/-- `#haltTimeout = 60` (seconds). -/
def haltTimeout : Int := 60

/-- Halt-detector state. -/
structure HaltState where
  lastLedgerTime : Int
  halted : Bool
  lastHaltedTime : Int
  /-- absolute firing time of the pending grace `setTimeout`, in
  quarter-milliseconds (4 x ms), when any -/
  graceDeadlineQms : Option Int
deriving DecidableEq, Repr

/-- Fire the grace timeout if its deadline has been reached: the timer
body sets `#xrplHalted = false` and clears `#graceTimeoutRef`. -/
def fireGrace (now : Int) (s : HaltState) : HaltState :=
  match s.graceDeadlineQms with
  | some d => if d ≤ 4 * now then { s with halted := false, graceDeadlineQms := none } else s
  | none => s

/-- Shallow embedding of `#checkLedgersForHalt`, run at wall-clock time
`now` (ms).  The scheduled deadline `4 * now + (now - lastHaltedTime)` is
the quarter-ms rendering of `now + (now - lastHaltedTime) * 0.25`. -/
def checkLedgersForHalt (now : Int) (s : HaltState) : HaltState :=
  let diff := now - s.lastLedgerTime
  let s1 : HaltState :=
    if haltTimeout * 1000 ≤ diff then
      if s.halted = false then
        { s with halted := true, lastHaltedTime := s.lastLedgerTime }
      else if s.graceDeadlineQms ≠ none then { s with graceDeadlineQms := none }
      else s
    else s
  if s1.halted = true ∧ diff < haltTimeout * 1000 ∧ s1.graceDeadlineQms = none then
    { s1 with graceDeadlineQms := some (4 * now + (now - s1.lastHaltedTime)) }
  else s1

/-- Events driving the detector: a ledger tick (the `Ledger` event handler
records `lastLedgerTime`) or a scheduler pass running the halt check. -/
inductive HaltEvent
  | tick (t : Int)
  | check (t : Int)
deriving DecidableEq, Repr

/-- The wall-clock time of an event. -/
def HaltEvent.time : HaltEvent → Int
  | tick t => t
  | check t => t

/-- Process one event: any due grace timer fires first (real timers fire
between turns of the event loop), then the effect of the event itself runs. -/
def haltStep (s : HaltState) (e : HaltEvent) : HaltState :=
  match e with
  | .tick t => { fireGrace t s with lastLedgerTime := t }
  | .check t => checkLedgersForHalt t (fireGrace t s)

/-- Run the detector over a list of time-ordered events. -/
def runHalt (init : HaltState) (evs : List HaltEvent) : HaltState :=
  evs.foldl haltStep init

/-- Whether the ledger is considered halted at time `t`, after processing
the events up to `t` and any grace timer due by `t`. -/
def haltedAt (init : HaltState) (evs : List HaltEvent) (t : Int) : Bool :=
  (fireGrace t (runHalt init (evs.filter (fun e => decide (e.time ≤ t))))).halted

/-- Initial detector state at t=0 (first tick at 0, not halted, no grace
pending). -/
def initS6 : HaltState :=
  { lastLedgerTime := 0, halted := false, lastHaltedTime := 0, graceDeadlineQms := none }

/-- The S6 scenario event trace: ledger ticks each second for t=0..59 s and
again from t=240 s on; scheduler halt checks every 2 s (per the scheduler
`tick_seconds` default).  A tick and a check falling in the same second
process the tick first.  Times in ms. -/
def eventsS6 : List HaltEvent :=
  (List.range 301).flatMap (fun s =>
    (if s ≤ 59 ∨ 240 ≤ s then [HaltEvent.tick (1000 * (s : Int))] else []) ++
    (if s % 2 = 0 then [HaltEvent.check (1000 * (s : Int))] else []))

/-- Halt status over the S6 trace at time `t` ms. -/
def haltedAtS6 (t : Int) : Bool :=
  haltedAt initS6 eventsS6 t

end Halt

/-! ## Acquire handler (`MessageBoard.handleAcquireLease`)

The handler is embedded as a function from the event and its environment
(configured address, URIToken lookup, the acquire window of the ledger, the
elapsed times measured at the two budget gates, and whether the daemon
create succeeded) to the ordered list of effects it performs.  The two
thresholds come from `appenv`: `ACQUIRE_LEASE_WAIT_TIMEOUT_THRESHOLD = 0.4`
applied after `sashiCli.wait()`, `ACQUIRE_LEASE_TIMEOUT_THRESHOLD = 0.8`
applied after `sashiCli.createInstance`.
-/

namespace Acquire

/-- `appenv.ACQUIRE_LEASE_TIMEOUT_THRESHOLD`. -/
def ACQUIRE_LEASE_TIMEOUT_THRESHOLD : Rat := 8 / 10

/-- `appenv.ACQUIRE_LEASE_WAIT_TIMEOUT_THRESHOLD`. -/
def ACQUIRE_LEASE_WAIT_TIMEOUT_THRESHOLD : Rat := 4 / 10

/-- Observable effects of the acquire handler, in program order. -/
inductive Effect
  | updateLastIndex (ledgerIndex : Nat)
  | createLeaseRecord (txHash tenant container : String) (moments : Nat)
  | setLeaseStatus (txHash : String) (st : LeaseStatus)
  | cliCreateInstance (container : String)
  | cliDestroyInstance (container : String)
  | recreateLeaseOffer (tokenId : String) (leaseIndex : Nat)
  | addToExpiryList (txHash container tenant : String)
  | enqueueUpdateRegAndAcquireSuccess (txHash tenant : String)
  | enqueueAcquireError (txHash tenant : String) (amount : Rat)
  | refundTenant (txHash tenant : String)
deriving DecidableEq, Repr

/-- Whether an effect submits (or enqueues a submission) returning funds to
the tenant: a direct `refundTenant` or an `acquireError` carrying the lease
amount. -/
def Effect.returnsFunds : Effect → Bool
  | .enqueueAcquireError _ _ _ => true
  | .refundTenant _ _ => true
  | _ => false

/-- The fields of the decoded lease-token URI the handler uses. -/
structure UriInfo where
  leaseAmount : Rat
  leaseIndex : Nat
deriving DecidableEq, Repr

/-- One `AcquireLease` ledger event (`r`). -/
structure AcquireEvent where
  acquireRefId : String
  uriTokenId : String
  leaseAmount : Rat
  tenant : String
  host : String
  ledgerIndex : Nat
deriving DecidableEq, Repr

/-- Environment of one acquire handling: configuration, the token found by
`getLeaseByIndex` (owner and decoded URI), the acquire window (seconds),
the elapsed seconds when `sashiCli.wait()` returned (`waitDiff`), the
elapsed seconds when `sashiCli.createInstance` returned (`createDiff`),
whether that create succeeded, and — when it failed — whether the failure
was an `initiate_error` (instance created then rolled back by the daemon,
which the handler answers with its own destroy call). -/
structure AcquireEnv where
  cfgAddress : String
  uriToken : Option (String × UriInfo)
  leaseAcquireWindow : Rat
  waitDiff : Rat
  createDiff : Rat
  createOk : Bool
  createFailIsInitiateError : Bool
deriving DecidableEq, Repr

/-- The catch block of `handleAcquireLease`: mark the lease `Failed` when
the request had been validated, destroy the instance when one was created
(or the daemon reported `initiate_error`), re-create the lease offer when
a lease index had been resolved, and enqueue `acquireError` with the
received lease amount. -/
def catchEffects (ev : AcquireEvent) (requestValidated : Bool)
    (destroyCreated : Bool) (leaseIndex : Option Nat) : List Effect :=
  (if requestValidated then [Effect.setLeaseStatus ev.acquireRefId .Failed] else []) ++
  (if destroyCreated then [Effect.cliDestroyInstance ev.uriTokenId] else []) ++
  (match leaseIndex with
   | some idx => [Effect.recreateLeaseOffer ev.uriTokenId idx]
   | none => []) ++
  [Effect.enqueueAcquireError ev.acquireRefId ev.tenant ev.leaseAmount]

/-- Shallow embedding of `handleAcquireLease` as its effect trace.  Mirrors
the source order: host validation, checkpoint update, token lookup and
ownership check, amount match, `Acquiring` row creation, the 40 % wait
gate, daemon create, the 80 % create gate, then the success bookkeeping. -/
def handleAcquireLease (env : AcquireEnv) (ev : AcquireEvent) : List Effect :=
  if ev.host ≠ env.cfgAddress then catchEffects ev false false none
  else
    Effect.updateLastIndex ev.ledgerIndex ::
    (match env.uriToken with
     | none => catchEffects ev false false none
     | some (owner, uri) =>
       if owner ≠ ev.tenant then catchEffects ev false false none
       else if ev.leaseAmount ≠ uri.leaseAmount then catchEffects ev false false none
       else
         Effect.createLeaseRecord ev.acquireRefId ev.tenant ev.uriTokenId 1 ::
         (if ACQUIRE_LEASE_WAIT_TIMEOUT_THRESHOLD * env.leaseAcquireWindow < env.waitDiff then
           [Effect.setLeaseStatus ev.acquireRefId .SashiTimeout,
            Effect.recreateLeaseOffer ev.uriTokenId uri.leaseIndex]
         else
           Effect.cliCreateInstance ev.uriTokenId ::
           (if env.createOk = false then
             catchEffects ev true env.createFailIsInitiateError (some uri.leaseIndex)
           else if ACQUIRE_LEASE_TIMEOUT_THRESHOLD * env.leaseAcquireWindow < env.createDiff then
             -- `destroyInstance` = cli destroy, mark the lease row `Destroyed`,
             -- then `recreateLeaseOffer`
             [Effect.setLeaseStatus ev.acquireRefId .SashiTimeout,
              Effect.cliDestroyInstance ev.uriTokenId,
              Effect.setLeaseStatus ev.acquireRefId .Destroyed,
              Effect.recreateLeaseOffer ev.uriTokenId uri.leaseIndex]
           else
             [Effect.addToExpiryList ev.acquireRefId ev.uriTokenId ev.tenant,
              Effect.enqueueUpdateRegAndAcquireSuccess ev.acquireRefId ev.tenant])))

end Acquire

/-! ## Daemon port allocation (`hp_manager.cpp`)

Global daemon state: the instance table, the `vacant_ports` vector, the
`last_assigned_ports` tuple and the `last_port_assign_from_vacant` flag.
`create_new_instance` consumes `vacant_ports.back()` when available, else
advances `last_assigned_ports` (+1 peer/user, +2 on each gp base), after
refreshing it from the database maximum when the previous assignment came
from the vacant list.  `destroy_container` hard-deletes the row and pushes
the freed tuple back (reconstructing the gp bases — with transposed
peer/user fields, per the brace-initializer order — for legacy rows whose
stored gp base is 0). -/

namespace Hp

deriving instance DecidableEq for Except

/-- `hp::ports` — all four values are `uint16_t`. -/
structure Ports where
  peer_port : Nat
  user_port : Nat
  gp_tcp_port_start : Nat
  gp_udp_port_start : Nat
deriving DecidableEq, Repr

/-- Truncation to `uint16_t`. -/
def u16 (x : Int) : Nat := (x % 65536).toNat

/-- The configuration fields the allocator reads. -/
structure HpConfig where
  init_peer_port : Nat
  init_gp_tcp_port : Nat
  init_gp_udp_port : Nat
  max_instance_count : Nat
deriving DecidableEq, Repr

/-- Daemon allocator state. -/
structure HpState where
  instances : List (String × Ports)
  vacant_ports : List Ports
  last_assigned_ports : Ports
  last_port_assign_from_vacant : Bool
deriving DecidableEq, Repr

/-- The advance step used when no vacant slot exists:
`{last.peer+1, last.user+1, last.gp_tcp+2, last.gp_udp+2}` with `uint16_t`
truncation. -/
def advancePorts (p : Ports) : Ports :=
  { peer_port := u16 (p.peer_port + 1), user_port := u16 (p.user_port + 1),
    gp_tcp_port_start := u16 (p.gp_tcp_port_start + 2),
    gp_udp_port_start := u16 (p.gp_udp_port_start + 2) }

/-- External effects of `create_new_instance` (script and runtime calls). -/
inductive HpEffect
  | installUser
  | uninstallUser
  | dockerCreate
  | dockerRemove
deriving DecidableEq, Repr

/-- Failure injection for the fallible steps of `create_new_instance`.
A failing step is modelled as performing no partial effect of its own
(a failed `docker create` leaves no container). -/
structure FailPlan where
  installFails : Bool
  contractFails : Bool
  containerFails : Bool
  insertFails : Bool
deriving DecidableEq, Repr

/-- The plan on which every step succeeds. -/
def allOk : FailPlan :=
  { installFails := false, contractFails := false, containerFails := false,
    insertFails := false }

/-- Result of `create_new_instance`: the returned error code or assigned
ports, the daemon state afterwards, and the external effects performed. -/
structure CreateOutcome where
  result : Except String Ports
  state : HpState
  effects : List HpEffect
deriving DecidableEq, Repr

/-- Shallow embedding of `hp::create_new_instance`.  `dbMaxPorts` is the
tuple `sqlite::get_max_ports` reports (the implementation of that query is not
part of the sources; its result is taken as an input). -/
def create_new_instance (cfg : HpConfig) (dbMaxPorts : Ports) (fp : FailPlan)
    (validUuid : Bool) (container_name : String) (st : HpState) : CreateOutcome :=
  if st.instances.any (fun i => i.1 == container_name) then
    ⟨.error "instance_already_exists", st, []⟩
  else if cfg.max_instance_count ≤ st.instances.length then
    ⟨.error "max_alloc_reached", st, []⟩
  else if validUuid = false then
    ⟨.error "contractid_bad_format", st, []⟩
  else
    let sel : Ports × HpState :=
      if st.vacant_ports ≠ [] then
        (st.vacant_ports.getLastD ⟨0, 0, 0, 0⟩,
         { st with last_port_assign_from_vacant := true })
      else
        let stm : HpState :=
          if st.last_port_assign_from_vacant then
            { st with last_assigned_ports := dbMaxPorts,
                      last_port_assign_from_vacant := false }
          else st
        (advancePorts stm.last_assigned_ports, stm)
    let p := sel.1
    let st1 := sel.2
    if fp.installFails then ⟨.error "user_install_error", st1, []⟩
    else if fp.contractFails then
      ⟨.error "instance_error", st1, [.installUser, .uninstallUser]⟩
    else if fp.containerFails then
      ⟨.error "instance_error", st1, [.installUser, .uninstallUser]⟩
    else if fp.insertFails then
      ⟨.error "db_write_error", st1,
       [.installUser, .dockerCreate, .dockerRemove, .uninstallUser]⟩
    else
      let st2 : HpState := { st1 with instances := st1.instances ++ [(container_name, p)] }
      let st3 : HpState :=
        if st1.last_port_assign_from_vacant then
          { st2 with vacant_ports := st2.vacant_ports.dropLast }
        else { st2 with last_assigned_ports := p }
      ⟨.ok p, st3, [.installUser, .dockerCreate]⟩

/-- The tuple `destroy_container` pushes for a legacy row whose stored gp
base is 0: brace-initializes `hp::ports` with
`{user_port, peer_port, init_gp_tcp + increment, init_gp_udp + increment}`
where `increment = (peer_port - init_peer_port) * 2` — note the first two
initializers land in the `peer_port` and `user_port` fields in that
order. -/
def legacyVacantPush (cfg : HpConfig) (p : Ports) : Ports :=
  let increment := u16 (((p.peer_port : Int) - cfg.init_peer_port) * 2)
  { peer_port := p.user_port, user_port := p.peer_port,
    gp_tcp_port_start := u16 ((cfg.init_gp_tcp_port : Int) + increment),
    gp_udp_port_start := u16 ((cfg.init_gp_udp_port : Int) + increment) }

/-- Shallow embedding of `hp::destroy_container`: look up the row,
uninstall the user and hard-delete the row, then push the freed tuple
onto `vacant_ports` unless it is already there. -/
def destroy_container (cfg : HpConfig) (uninstallFails : Bool)
    (container_name : String) (st : HpState) : Except String HpState :=
  match st.instances.find? (fun i => i.1 == container_name) with
  | none => .error "no_container"
  | some (_, p) =>
    if uninstallFails then .error "user_uninstall_error"
    else
      let st1 : HpState :=
        { st with instances := st.instances.filter (fun i => i.1 != container_name) }
      if p ∈ st1.vacant_ports then .ok st1
      else if p.gp_tcp_port_start = 0 then
        .ok { st1 with vacant_ports := st1.vacant_ports ++ [legacyVacantPush cfg p] }
      else .ok { st1 with vacant_ports := st1.vacant_ports ++ [p] }

end Hp

/-! ## Theorems -/

/-- C7: every response framed by `comm::send` starts with four bytes holding
the message length big-endian; the remaining four header bytes are passed
through unmodified from the uninitialized stack buffer, so they are NOT
guaranteed to be zero — a buffer residue of 7 yields header
`[0,0,0,5,7,7,7,7]` for a 5-byte message, not `[0,0,0,5,0,0,0,0]`. -/
theorem C7_header_reserved_bytes_uninitialized :
    (∀ (junk : Fin 8 → Nat) (msgLen : Nat),
      (Comm.sendHeader junk msgLen).take 4 = Comm.uint32_to_bytes msgLen ∧
      (Comm.sendHeader junk msgLen).drop 4 = [junk 4, junk 5, junk 6, junk 7]) ∧
    Comm.sendHeader (fun _ => 7) 5 = [0, 0, 0, 5, 7, 7, 7, 7] ∧
    Comm.sendHeader (fun _ => 7) 5 ≠ Comm.uint32_to_bytes 5 ++ [0, 0, 0, 0] := by
  refine ⟨fun junk msgLen => ⟨rfl, rfl⟩, by decide, by decide⟩

/-- C8: a well-formed inbound request of 4097 bytes is within the declared
1 MiB cap yet `comm::read_socket` delivers only 4096 bytes of it in its
single receive (the `SOCK_SEQPACKET` read truncates to `BUFFER_SIZE`), so
the claim that any message up to 1 MiB is read whole in one receive is
false. -/
theorem C8_one_mib_read_counterexample :
    4097 ≤ Comm.DEFAULT_MAX_MSG_SIZE ∧
    Comm.read_socket 4097 = 4096 ∧ Comm.read_socket 4097 ≠ 4097 := by
  refine ⟨by decide, by decide, by decide⟩

/-- C8 (amended): a single inbound message is read in one socket receive in
full only up to the 4096-byte read buffer; the receive never delivers more
than 4096 bytes, and the 1 MiB constant plays no role in the read path. -/
theorem C8_single_read_up_to_buffer (len : Nat) (h : len ≤ Comm.BUFFER_SIZE) :
    Comm.read_socket len = len ∧ ∀ m : Nat, Comm.read_socket m ≤ Comm.BUFFER_SIZE := by
  constructor
  · exact Nat.min_eq_left h
  · intro m
    exact Nat.min_le_right m Comm.BUFFER_SIZE

/-- C8 witness: a 4096-byte message is delivered whole. -/
theorem C8_single_read_up_to_buffer_witness :
    Comm.read_socket 4096 = 4096 ∧ ∀ m : Nat, Comm.read_socket m ≤ Comm.BUFFER_SIZE :=
  C8_single_read_up_to_buffer 4096 (by decide)

/-- C5: when a queued action fails with a `TOOK_LONG` error on attempt `k`
(its attempt counter reaching `k = attempts+1` of `maxAttempts = N`) and
the configured `affordableExtraFee` is positive, the fee uplift becomes
`floor(affordableExtraFee * k / N)` and is what
`#prepareHostClientFunctionOptions` attaches to subsequent submissions;
a successful action resets the uplift to zero and detaches it. -/
theorem C5_fee_uplift_escalation (fee : Rat) (s : Queue.UpliftState)
    (a : Queue.QAction) (hfee : 0 < fee) (hatt : a.attempts < a.maxAttempts) :
    (Queue.processAction fee s a (.failure true)).1 =
      { applyFeeUpliftment := true,
        feeUpliftment := ⌊fee * ((a.attempts : Rat) + 1) / (a.maxAttempts : Rat)⌋ } ∧
    Queue.prepareOptions (Queue.processAction fee s a (.failure true)).1 =
      some ⌊fee * ((a.attempts : Rat) + 1) / (a.maxAttempts : Rat)⌋ ∧
    (Queue.processAction fee s a .success).1 =
      { applyFeeUpliftment := false, feeUpliftment := 0 } ∧
    Queue.prepareOptions (Queue.processAction fee s a .success).1 = none := by
  have hcast : ((a.attempts + 1 : Nat) : Rat) = (a.attempts : Rat) + 1 := by
    push_cast
    ring
  refine ⟨?_, ?_, rfl, rfl⟩ <;>
    simp [Queue.processAction, Queue.prepareOptions, hfee, hatt, hcast]

/-- C5 witness: first `TOOK_LONG` failure of a fresh 5-attempt action with
`affordableExtraFee = 12` sets the uplift to `floor(12*1/5) = 2`. -/
theorem C5_fee_uplift_escalation_witness :
    (Queue.processAction 12 { applyFeeUpliftment := false, feeUpliftment := 0 }
        { attempts := 0, maxAttempts := 5, delay := 0 } (.failure true)).1 =
      { applyFeeUpliftment := true,
        feeUpliftment := ⌊(12 : Rat) * ((0 : Nat) + 1 : Rat) / ((5 : Nat) : Rat)⌋ } ∧
    Queue.prepareOptions (Queue.processAction 12
        { applyFeeUpliftment := false, feeUpliftment := 0 }
        { attempts := 0, maxAttempts := 5, delay := 0 } (.failure true)).1 =
      some ⌊(12 : Rat) * ((0 : Nat) + 1 : Rat) / ((5 : Nat) : Rat)⌋ ∧
    (Queue.processAction 12 { applyFeeUpliftment := false, feeUpliftment := 0 }
        { attempts := 0, maxAttempts := 5, delay := 0 } .success).1 =
      { applyFeeUpliftment := false, feeUpliftment := 0 } ∧
    Queue.prepareOptions (Queue.processAction 12
        { applyFeeUpliftment := false, feeUpliftment := 0 }
        { attempts := 0, maxAttempts := 5, delay := 0 } .success).1 = none :=
  C5_fee_uplift_escalation 12
    { applyFeeUpliftment := false, feeUpliftment := 0 }
    { attempts := 0, maxAttempts := 5, delay := 0 } (by norm_num) (by decide)

/-- C2: the claim that a retry whose `submission_refs` record a validated
successful tx hash performs no new ledger submission is false for
`recreateLeaseOffer`.  Its `offerLease` is submitted without a submission
ref, so on the reachable retry state — the first attempt submitted
`expireLease` (hash recorded in `refs[0]`, now validated `tesSUCCESS`)
and marked the row `Burned`, then failed at the offer — the retry skips
the expire but submits `offerLease` again: a new ledger submission. -/
theorem C2_offer_resubmitted_counterexample :
    Idempotence.validatedSuccess (fun _ => some "tesSUCCESS") (some "H1") = true ∧
    (Idempotence.recreateOfferCallback (fun _ => some "tesSUCCESS")
        (some "H1") false "T1" 0 2 (some .Burned)).1 = [.offerLease 0 2] := by
  refine ⟨by decide, by decide⟩

/-- C2 (amended): each ledger submission that records its tx hash in a
submission ref is skipped on retry once the ledger reports that hash
validated and successful — the only submission a retried
`recreateLeaseOffer` with a validated `expireLease` hash can still make is
the deliberately unguarded `offerLease` (never a second `expireLease`),
which it re-submits exactly when the row is `Burned`; the fully guarded
`#expireInstance` action performs no submission at all on such a retry. -/
theorem C2_guarded_submissions_skipped (ledger : String → Option String)
    (ref0 ref2 : Option String) (noLease : Bool) (tokenId : String)
    (leaseIndex : Nat) (leaseAmount : Rat) (status : Option LeaseStatus)
    (activeCount : Int)
    (h0 : Idempotence.validatedSuccess ledger ref0 = true)
    (h2 : Idempotence.validatedSuccess ledger ref2 = true) :
    ((Idempotence.recreateOfferCallback ledger ref0 noLease tokenId
        leaseIndex leaseAmount status).1 = [] ∨
      (Idempotence.recreateOfferCallback ledger ref0 noLease tokenId
        leaseIndex leaseAmount status).1 = [.offerLease leaseIndex leaseAmount]) ∧
    (status = some .Burned →
      (Idempotence.recreateOfferCallback ledger ref0 noLease tokenId
        leaseIndex leaseAmount status).1 = [.offerLease leaseIndex leaseAmount]) ∧
    Idempotence.expireInstanceCallback ledger ref2 activeCount = [] := by
  have hnone : Idempotence.validatedSuccess ledger none = false := rfl
  refine ⟨?_, ?_, ?_⟩
  · by_cases hoff : (noLease = true ∨ status = some LeaseStatus.Burned)
    · right
      simp [Idempotence.recreateOfferCallback, h0, hnone, hoff]
    · left
      simp [Idempotence.recreateOfferCallback, h0, hnone, hoff]
  · intro hb
    simp [Idempotence.recreateOfferCallback, h0, hnone, hb]
  · simp [Idempotence.expireInstanceCallback, h2]

/-- C2 witness: with the recorded hashes validated as successful, a retried
`recreateLeaseOffer` on a `Burned` row submits only the unguarded
`offerLease` (no `expireLease`), and a retried `#expireInstance` action
submits nothing. -/
theorem C2_guarded_submissions_skipped_witness :
    ((Idempotence.recreateOfferCallback (fun _ => some "tesSUCCESS")
        (some "H1") false "T1" 0 2 (some .Burned)).1 = [] ∨
      (Idempotence.recreateOfferCallback (fun _ => some "tesSUCCESS")
        (some "H1") false "T1" 0 2 (some .Burned)).1 = [.offerLease 0 2]) ∧
    (some LeaseStatus.Burned = some LeaseStatus.Burned →
      (Idempotence.recreateOfferCallback (fun _ => some "tesSUCCESS")
        (some "H1") false "T1" 0 2 (some .Burned)).1 = [.offerLease 0 2]) ∧
    Idempotence.expireInstanceCallback (fun _ => some "tesSUCCESS") (some "H3") 4 = [] :=
  C2_guarded_submissions_skipped (fun _ => some "tesSUCCESS") (some "H1")
    (some "H3") false "T1" 0 2 (some .Burned) 4 (by decide) (by decide)

/-- C4: the claim that the extend handler succeeds only for payments that
are an integer multiple of the encoded lease amount is false: with lease
amount 2, a payment of 3 (not an integer multiple) passes every validation
and succeeds, extending by `floor(3/2) = 1` moment. -/
theorem C4_integer_multiple_counterexample :
    Extend.handleExtendLease
        { cfgAddress := "rHOST", uriToken := some ⟨"rTENANT", 2⟩,
          leaseRow := some 1, expiryItemPresent := true }
        { destination := "rHOST", tenant := "rTENANT", payment := 3 } =
      { success := true, errorEnqueued := false,
        newLifeMoments := some 2, extendedMoments := some 1 } ∧
    ¬ ∃ k : Int, 1 ≤ k ∧ (3 : Rat) = k * 2 := by
  constructor
  · have hf : (⌊(3 : Rat) / 2⌋ : Int) = 1 := by norm_num [Int.floor_eq_iff]
    simp [Extend.handleExtendLease, hf]
  · rintro ⟨k, -, hk⟩
    have h3 : (3 : Rat) = ((2 * k : Int) : Rat) := by
      push_cast
      linarith
    have h4 : (3 : Int) = 2 * k := by exact_mod_cast h3
    omega

/-- C4 (amended): the extend handler succeeds only when the payment is at
least one lease amount — it extends by `floor(payment / lease_amount)`
moments — and for every extend event whose payment is less than one lease
amount it enqueues `extendError` and changes neither the lease row nor the
in-memory expiry entry. -/
theorem C4_extend_payment_gate (env : Extend.ExtendEnv) (r : Extend.ExtendEvent)
    (tok : Extend.UriToken) (htok : env.uriToken = some tok) :
    (r.payment < tok.leaseAmount → Extend.handleExtendLease env r = Extend.extendError) ∧
    ((Extend.handleExtendLease env r).success = true →
      0 < tok.leaseAmount ∧ tok.leaseAmount ≤ r.payment ∧
      (Extend.handleExtendLease env r).extendedMoments =
        some ⌊r.payment / tok.leaseAmount⌋) := by
  constructor
  · intro hlt
    unfold Extend.handleExtendLease
    rw [htok]
    by_cases hd : r.destination ≠ env.cfgAddress
    · simp [hd]
    · by_cases ho : tok.owner ≠ r.tenant
      · simp [hd, ho]
      · by_cases hz : tok.leaseAmount ≤ 0
        · simp [hd, ho, hz]
        · have hpos : 0 < tok.leaseAmount := lt_of_not_le hz
          have hflt : ⌊r.payment / tok.leaseAmount⌋ < 1 := by
            rw [Int.floor_lt]
            push_cast
            rw [div_lt_one hpos]
            exact hlt
          simp [hd, ho, hz, hflt]
  · intro hs
    unfold Extend.handleExtendLease at hs
    rw [htok] at hs
    by_cases hd : r.destination ≠ env.cfgAddress
    · simp [hd, Extend.extendError] at hs
    · by_cases ho : tok.owner ≠ r.tenant
      · simp [hd, ho, Extend.extendError] at hs
      · by_cases hz : tok.leaseAmount ≤ 0
        · simp [hd, ho, hz, Extend.extendError] at hs
        · have hpos : 0 < tok.leaseAmount := lt_of_not_le hz
          by_cases hflt : ⌊r.payment / tok.leaseAmount⌋ < 1
          · simp [hd, ho, hz, hflt, Extend.extendError] at hs
          · have hge : (1 : Int) ≤ ⌊r.payment / tok.leaseAmount⌋ := not_lt.mp hflt
            have hone : (1 : Rat) ≤ r.payment / tok.leaseAmount := by
              calc (1 : Rat) = ((1 : Int) : Rat) := by norm_num
              _ ≤ (⌊r.payment / tok.leaseAmount⌋ : Rat) := by exact_mod_cast hge
              _ ≤ r.payment / tok.leaseAmount := Int.floor_le _
            have hle : tok.leaseAmount ≤ r.payment := (one_le_div hpos).mp hone
            refine ⟨hpos, hle, ?_⟩
            unfold Extend.handleExtendLease
            rw [htok]
            cases hrow : env.leaseRow with
            | none => rw [hrow] at hs; simp [hd, ho, hz, hflt, Extend.extendError] at hs
            | some m =>
              rw [hrow] at hs
              by_cases he : env.expiryItemPresent
              · simp [hd, ho, hz, hflt, hrow, he]
              · simp [hd, ho, hz, hflt, he, Extend.extendError] at hs

/-- C4 witness: with lease amount 2, a payment of 1 yields `extendError`
and no state change; also, the successful payment-3 extend indeed paid at
least one lease amount. -/
theorem C4_extend_payment_gate_witness :
    Extend.handleExtendLease
        { cfgAddress := "rHOST", uriToken := some ⟨"rTENANT", 2⟩,
          leaseRow := some 1, expiryItemPresent := true }
        { destination := "rHOST", tenant := "rTENANT", payment := 1 } =
      Extend.extendError :=
  (C4_extend_payment_gate
      { cfgAddress := "rHOST", uriToken := some ⟨"rTENANT", 2⟩,
        leaseRow := some 1, expiryItemPresent := true }
      { destination := "rHOST", tenant := "rTENANT", payment := 1 }
      ⟨"rTENANT", 2⟩ rfl).1 (by norm_num)

/-- C3: the claim that a pruned orphan is refunded iff its lease row was in
`Acquiring` and the token is tenant-owned is false on both sides: the
orphan-instance pass also refunds a `Destroyed` lease row whose token is
still tenant-owned, and an `Acquired` orphan whose token is gone is
destroyed and its record deleted with no re-offer at all. -/
theorem C3_refund_iff_counterexample :
    (Prune.pruneOrphanInstance "rHOST" (some .Destroyed) (some "rTENANT") true).refundEnqueued
      = true ∧
    (LeaseStatus.Destroyed = LeaseStatus.Acquiring → False) ∧
    Prune.pruneOrphanInstance "rHOST" (some .Acquired) none true =
      { destroyed := true, markedDestroyed := true, reoffered := false,
        refundEnqueued := false, recordDeleted := true } := by
  refine ⟨by decide, by decide, by decide⟩

/-- C3 (amended): in the orphan-instance pass the tenant is refunded iff the
lease row was in `Acquiring` or `Destroyed` and the token exists and is not
host-owned (refund and re-offer coincide there); in the orphan-lease pass
the tenant is refunded iff the row was in `Acquiring` and the token exists
and is not host-owned, while the slot is re-offered for every
tenant-owned token; orphans whose token is missing or host-owned get their
lease record deleted without re-offer or refund. -/
theorem C3_orphan_refund_conditions (hostAddr : String) (st : LeaseStatus)
    (tokenOwner : Option String) (hex : Bool) :
    ((Prune.pruneOrphanInstance hostAddr (some st) tokenOwner hex).refundEnqueued = true ↔
      ((st = .Acquiring ∨ st = .Destroyed) ∧
        tokenOwner ≠ none ∧ tokenOwner ≠ some hostAddr)) ∧
    ((Prune.pruneOrphanInstance hostAddr (some st) tokenOwner hex).reoffered =
      (Prune.pruneOrphanInstance hostAddr (some st) tokenOwner hex).refundEnqueued) ∧
    ((Prune.pruneOrphanLease hostAddr st tokenOwner).refundEnqueued = true ↔
      (st = .Acquiring ∧ tokenOwner ≠ none ∧ tokenOwner ≠ some hostAddr)) ∧
    ((Prune.pruneOrphanLease hostAddr st tokenOwner).reoffered = true ↔
      (tokenOwner ≠ none ∧ tokenOwner ≠ some hostAddr)) ∧
    ((Prune.pruneOrphanLease hostAddr st tokenOwner).recordDeleted = true ↔
      ¬ (tokenOwner ≠ none ∧ tokenOwner ≠ some hostAddr)) := by
  rcases tokenOwner with - | o
  · cases st <;>
      simp [Prune.pruneOrphanInstance, Prune.pruneOrphanLease, Prune.skip]
  · by_cases ho : o = hostAddr
    · subst ho
      cases st <;>
        simp [Prune.pruneOrphanInstance, Prune.pruneOrphanLease, Prune.skip]
    · cases st <;>
        simp [Prune.pruneOrphanInstance, Prune.pruneOrphanLease, Prune.skip, ho]

/-- C9: the claim that destroying an instance pushes its freed port tuple
onto the vacant list fails for legacy rows whose stored gp base is 0:
destroying such a row pushes a recomputed tuple whose peer and user fields
are moreover transposed (brace-initializer order), not the freed tuple. -/
theorem C9_legacy_push_counterexample :
    Hp.destroy_container ⟨22861, 36525, 39064, 3⟩ false "A"
        { instances := [("A", ⟨22862, 26202, 0, 0⟩)], vacant_ports := [],
          last_assigned_ports := ⟨22862, 26202, 36527, 39066⟩,
          last_port_assign_from_vacant := false } =
      .ok { instances := [], vacant_ports := [⟨26202, 22862, 36527, 39066⟩],
            last_assigned_ports := ⟨22862, 26202, 36527, 39066⟩,
            last_port_assign_from_vacant := false } ∧
    (⟨26202, 22862, 36527, 39066⟩ : Hp.Ports) ≠ ⟨22862, 26202, 0, 0⟩ := by
  refine ⟨by decide, by decide⟩

/-- C9 (amended): for daemon states whose stored tuples carry a nonzero gp
base and are not already vacant, destroy pushes the freed port tuple onto
the vacant list; create consumes vacant tuples LIFO (the most recently
pushed, `vacant_ports.back()`, popped on success); with the vacant list
empty the allocator advances the last-assigned tuple by +1 on peer and
user ports and +2 on each gp base; and destroy followed by create reuses
the freed tuple. -/
theorem C9_port_allocation_lifo (cfg : Hp.HpConfig) (dbMax : Hp.Ports)
    (n : String) (st : Hp.HpState) (p : Hp.Ports) :
    (st.instances.find? (fun i => i.1 == n) = some (n, p) →
      p.gp_tcp_port_start ≠ 0 → p ∉ st.vacant_ports →
      Hp.destroy_container cfg false n st =
        .ok { st with instances := st.instances.filter (fun i => i.1 != n),
                      vacant_ports := st.vacant_ports ++ [p] }) ∧
    (st.vacant_ports ≠ [] →
      st.instances.any (fun i => i.1 == n) = false →
      st.instances.length < cfg.max_instance_count →
      (Hp.create_new_instance cfg dbMax Hp.allOk true n st).result =
        .ok (st.vacant_ports.getLastD ⟨0, 0, 0, 0⟩) ∧
      (Hp.create_new_instance cfg dbMax Hp.allOk true n st).state.vacant_ports =
        st.vacant_ports.dropLast) ∧
    (st.vacant_ports = [] → st.last_port_assign_from_vacant = false →
      st.instances.any (fun i => i.1 == n) = false →
      st.instances.length < cfg.max_instance_count →
      (Hp.create_new_instance cfg dbMax Hp.allOk true n st).result =
        .ok (Hp.advancePorts st.last_assigned_ports)) ∧
    (∀ m : String, st.instances.find? (fun i => i.1 == n) = some (n, p) →
      p.gp_tcp_port_start ≠ 0 → p ∉ st.vacant_ports →
      ((st.instances.filter (fun i => i.1 != n)).any (fun i => i.1 == m)) = false →
      (st.instances.filter (fun i => i.1 != n)).length < cfg.max_instance_count →
      ∀ st2 : Hp.HpState, Hp.destroy_container cfg false n st = .ok st2 →
        (Hp.create_new_instance cfg dbMax Hp.allOk true m st2).result = .ok p) := by
  have hdestroy : st.instances.find? (fun i => i.1 == n) = some (n, p) →
      p.gp_tcp_port_start ≠ 0 → p ∉ st.vacant_ports →
      Hp.destroy_container cfg false n st =
        .ok { st with instances := st.instances.filter (fun i => i.1 != n),
                      vacant_ports := st.vacant_ports ++ [p] } := by
    intro hfind hgp hmem
    simp [Hp.destroy_container, hfind, hgp, hmem]
  have hcreateVac : ∀ (nm : String) (st3 : Hp.HpState), st3.vacant_ports ≠ [] →
      st3.instances.any (fun i => i.1 == nm) = false →
      st3.instances.length < cfg.max_instance_count →
      (Hp.create_new_instance cfg dbMax Hp.allOk true nm st3).result =
        .ok (st3.vacant_ports.getLastD ⟨0, 0, 0, 0⟩) ∧
      (Hp.create_new_instance cfg dbMax Hp.allOk true nm st3).state.vacant_ports =
        st3.vacant_ports.dropLast := by
    intro nm st3 hvac hfresh hcount
    constructor <;>
      simp [Hp.create_new_instance, Hp.allOk, hvac, hfresh, not_le.mpr hcount,
        List.dropLast_concat]
  refine ⟨hdestroy, fun hvac => hcreateVac n st hvac, ?_, ?_⟩
  · intro hvac hflag hfresh hcount
    simp [Hp.create_new_instance, Hp.allOk, hvac, hflag, hfresh, not_le.mpr hcount]
  · intro m hfind hgp hmem hfresh2 hcount2 st2 hok
    rw [hdestroy hfind hgp hmem] at hok
    cases hok
    have hvac2 : (st.vacant_ports ++ [p]) ≠ [] := by simp
    have hc := hcreateVac m
      { st with instances := st.instances.filter (fun i => i.1 != n),
                vacant_ports := st.vacant_ports ++ [p] } hvac2 hfresh2 hcount2
    rw [hc.1]
    simp [List.getLastD_concat]

/-- C9 witness: from a state with one instance holding
`{22861, 26201, 36525, 39064}` and an empty vacant list, destroying it and
creating a new instance reuses exactly that tuple. -/
theorem C9_port_allocation_lifo_witness :
    Hp.destroy_container ⟨22861, 36525, 39064, 3⟩ false "A"
        { instances := [("A", ⟨22861, 26201, 36525, 39064⟩)], vacant_ports := [],
          last_assigned_ports := ⟨22861, 26201, 36525, 39064⟩,
          last_port_assign_from_vacant := false } =
      .ok { instances := [], vacant_ports := [⟨22861, 26201, 36525, 39064⟩],
            last_assigned_ports := ⟨22861, 26201, 36525, 39064⟩,
            last_port_assign_from_vacant := false } ∧
    (Hp.create_new_instance ⟨22861, 36525, 39064, 3⟩ ⟨22861, 26201, 36525, 39064⟩
        Hp.allOk true "B"
        { instances := [], vacant_ports := [⟨22861, 26201, 36525, 39064⟩],
          last_assigned_ports := ⟨22861, 26201, 36525, 39064⟩,
          last_port_assign_from_vacant := false }).result =
      .ok ⟨22861, 26201, 36525, 39064⟩ := by
  have h := C9_port_allocation_lifo ⟨22861, 36525, 39064, 3⟩
    ⟨22861, 26201, 36525, 39064⟩ "A"
    { instances := [("A", ⟨22861, 26201, 36525, 39064⟩)], vacant_ports := [],
      last_assigned_ports := ⟨22861, 26201, 36525, 39064⟩,
      last_port_assign_from_vacant := false } ⟨22861, 26201, 36525, 39064⟩
  have hd := h.1 (by decide) (by decide) (by decide)
  refine ⟨hd, ?_⟩
  exact h.2.2.2 "B" (by decide) (by decide) (by decide) (by decide) (by decide) _ hd

/-- C10: the claim that a failed create leaves the last-assigned port tuple
unchanged is false: with an empty vacant list and the
assign-from-vacant flag set, a create that fails at contract creation
(after the OS user was installed) has already refreshed
`last_assigned_ports` from the database maximum, leaving it changed. -/
theorem C10_last_assigned_refresh_counterexample :
    (Hp.create_new_instance ⟨22861, 36525, 39064, 3⟩ ⟨22861, 26201, 36525, 39064⟩
        { installFails := false, contractFails := true, containerFails := false,
          insertFails := false } true "A"
        { instances := [("B", ⟨22861, 26201, 36525, 39064⟩)], vacant_ports := [],
          last_assigned_ports := ⟨0, 0, 0, 0⟩,
          last_port_assign_from_vacant := true }).result =
      .error "instance_error" ∧
    (Hp.create_new_instance ⟨22861, 36525, 39064, 3⟩ ⟨22861, 26201, 36525, 39064⟩
        { installFails := false, contractFails := true, containerFails := false,
          insertFails := false } true "A"
        { instances := [("B", ⟨22861, 26201, 36525, 39064⟩)], vacant_ports := [],
          last_assigned_ports := ⟨0, 0, 0, 0⟩,
          last_port_assign_from_vacant := true }).state.last_assigned_ports =
      ⟨22861, 26201, 36525, 39064⟩ ∧
    (⟨22861, 26201, 36525, 39064⟩ : Hp.Ports) ≠ ⟨0, 0, 0, 0⟩ ∧
    Hp.HpEffect.uninstallUser ∈
      (Hp.create_new_instance ⟨22861, 36525, 39064, 3⟩ ⟨22861, 26201, 36525, 39064⟩
        { installFails := false, contractFails := true, containerFails := false,
          insertFails := false } true "A"
        { instances := [("B", ⟨22861, 26201, 36525, 39064⟩)], vacant_ports := [],
          last_assigned_ports := ⟨0, 0, 0, 0⟩,
          last_port_assign_from_vacant := true }).effects := by
  refine ⟨by decide, by decide, by decide, by decide⟩

/-- C10 (amended): when `create_new_instance` fails after the OS user was
installed — at contract/container creation or at the database insert — it
uninstalls the user (and on an insert failure also removes the container)
before returning an error; no instance row is added, the vacant-ports list
is unchanged, and the last-assigned tuple is either unchanged or — only
when the vacant list was empty and the previous assignment came from it —
already refreshed to the database maximum during port selection; the
persistent instance store is left unchanged. -/
theorem C10_failed_create_rollback (cfg : Hp.HpConfig) (dbMax : Hp.Ports)
    (fp : Hp.FailPlan) (n : String) (st : Hp.HpState)
    (hinst : fp.installFails = false)
    (hfail : fp.contractFails = true ∨ fp.containerFails = true ∨ fp.insertFails = true)
    (hfresh : st.instances.any (fun i => i.1 == n) = false)
    (hcount : st.instances.length < cfg.max_instance_count) :
    (∃ e : String, (Hp.create_new_instance cfg dbMax fp true n st).result = .error e) ∧
    Hp.HpEffect.installUser ∈ (Hp.create_new_instance cfg dbMax fp true n st).effects ∧
    Hp.HpEffect.uninstallUser ∈ (Hp.create_new_instance cfg dbMax fp true n st).effects ∧
    (fp.contractFails = false → fp.containerFails = false →
      Hp.HpEffect.dockerRemove ∈ (Hp.create_new_instance cfg dbMax fp true n st).effects) ∧
    (Hp.create_new_instance cfg dbMax fp true n st).state.instances = st.instances ∧
    (Hp.create_new_instance cfg dbMax fp true n st).state.vacant_ports = st.vacant_ports ∧
    ((Hp.create_new_instance cfg dbMax fp true n st).state.last_assigned_ports =
        st.last_assigned_ports ∨
      (st.vacant_ports = [] ∧ st.last_port_assign_from_vacant = true ∧
        (Hp.create_new_instance cfg dbMax fp true n st).state.last_assigned_ports = dbMax)) := by
  by_cases hvac : st.vacant_ports = []
  · by_cases hflag : st.last_port_assign_from_vacant = true
    · rcases hfail with h | h | h
      · refine ⟨⟨"instance_error", ?_⟩, ?_, ?_, ?_, ?_, ?_, .inr ⟨hvac, hflag, ?_⟩⟩ <;>
          simp [Hp.create_new_instance, hfresh, not_le.mpr hcount, hvac, hflag, hinst, h]
      · by_cases hcf : fp.contractFails = true
        · refine ⟨⟨"instance_error", ?_⟩, ?_, ?_, ?_, ?_, ?_, .inr ⟨hvac, hflag, ?_⟩⟩ <;>
            simp [Hp.create_new_instance, hfresh, not_le.mpr hcount, hvac, hflag, hinst, hcf, h]
        · have hcf2 : fp.contractFails = false := by
            revert hcf; cases fp.contractFails <;> simp
          refine ⟨⟨"instance_error", ?_⟩, ?_, ?_, ?_, ?_, ?_, .inr ⟨hvac, hflag, ?_⟩⟩ <;>
            simp [Hp.create_new_instance, hfresh, not_le.mpr hcount, hvac, hflag, hinst, hcf2, h]
      · by_cases hcf : fp.contractFails = true
        · refine ⟨⟨"instance_error", ?_⟩, ?_, ?_, ?_, ?_, ?_, .inr ⟨hvac, hflag, ?_⟩⟩ <;>
            simp [Hp.create_new_instance, hfresh, not_le.mpr hcount, hvac, hflag, hinst, hcf, h]
        · have hcf2 : fp.contractFails = false := by
            revert hcf; cases fp.contractFails <;> simp
          by_cases hco : fp.containerFails = true
          · refine ⟨⟨"instance_error", ?_⟩, ?_, ?_, ?_, ?_, ?_, .inr ⟨hvac, hflag, ?_⟩⟩ <;>
              simp [Hp.create_new_instance, hfresh, not_le.mpr hcount, hvac, hflag, hinst,
                hcf2, hco, h]
          · have hco2 : fp.containerFails = false := by
              revert hco; cases fp.containerFails <;> simp
            refine ⟨⟨"db_write_error", ?_⟩, ?_, ?_, ?_, ?_, ?_, .inr ⟨hvac, hflag, ?_⟩⟩ <;>
              simp [Hp.create_new_instance, hfresh, not_le.mpr hcount, hvac, hflag, hinst,
                hcf2, hco2, h]
    · have hflag2 : st.last_port_assign_from_vacant = false := by
        revert hflag; cases st.last_port_assign_from_vacant <;> simp
      rcases hfail with h | h | h
      · refine ⟨⟨"instance_error", ?_⟩, ?_, ?_, ?_, ?_, ?_, .inl ?_⟩ <;>
          simp [Hp.create_new_instance, hfresh, not_le.mpr hcount, hvac, hflag2, hinst, h]
      · by_cases hcf : fp.contractFails = true
        · refine ⟨⟨"instance_error", ?_⟩, ?_, ?_, ?_, ?_, ?_, .inl ?_⟩ <;>
            simp [Hp.create_new_instance, hfresh, not_le.mpr hcount, hvac, hflag2, hinst, hcf, h]
        · have hcf2 : fp.contractFails = false := by
            revert hcf; cases fp.contractFails <;> simp
          refine ⟨⟨"instance_error", ?_⟩, ?_, ?_, ?_, ?_, ?_, .inl ?_⟩ <;>
            simp [Hp.create_new_instance, hfresh, not_le.mpr hcount, hvac, hflag2, hinst, hcf2, h]
      · by_cases hcf : fp.contractFails = true
        · refine ⟨⟨"instance_error", ?_⟩, ?_, ?_, ?_, ?_, ?_, .inl ?_⟩ <;>
            simp [Hp.create_new_instance, hfresh, not_le.mpr hcount, hvac, hflag2, hinst, hcf, h]
        · have hcf2 : fp.contractFails = false := by
            revert hcf; cases fp.contractFails <;> simp
          by_cases hco : fp.containerFails = true
          · refine ⟨⟨"instance_error", ?_⟩, ?_, ?_, ?_, ?_, ?_, .inl ?_⟩ <;>
              simp [Hp.create_new_instance, hfresh, not_le.mpr hcount, hvac, hflag2, hinst,
                hcf2, hco, h]
          · have hco2 : fp.containerFails = false := by
              revert hco; cases fp.containerFails <;> simp
            refine ⟨⟨"db_write_error", ?_⟩, ?_, ?_, ?_, ?_, ?_, .inl ?_⟩ <;>
              simp [Hp.create_new_instance, hfresh, not_le.mpr hcount, hvac, hflag2, hinst,
                hcf2, hco2, h]
  · rcases hfail with h | h | h
    · refine ⟨⟨"instance_error", ?_⟩, ?_, ?_, ?_, ?_, ?_, .inl ?_⟩ <;>
        simp [Hp.create_new_instance, hfresh, not_le.mpr hcount, hvac, hinst, h]
    · by_cases hcf : fp.contractFails = true
      · refine ⟨⟨"instance_error", ?_⟩, ?_, ?_, ?_, ?_, ?_, .inl ?_⟩ <;>
          simp [Hp.create_new_instance, hfresh, not_le.mpr hcount, hvac, hinst, hcf, h]
      · have hcf2 : fp.contractFails = false := by
          revert hcf; cases fp.contractFails <;> simp
        refine ⟨⟨"instance_error", ?_⟩, ?_, ?_, ?_, ?_, ?_, .inl ?_⟩ <;>
          simp [Hp.create_new_instance, hfresh, not_le.mpr hcount, hvac, hinst, hcf2, h]
    · by_cases hcf : fp.contractFails = true
      · refine ⟨⟨"instance_error", ?_⟩, ?_, ?_, ?_, ?_, ?_, .inl ?_⟩ <;>
          simp [Hp.create_new_instance, hfresh, not_le.mpr hcount, hvac, hinst, hcf, h]
      · have hcf2 : fp.contractFails = false := by
          revert hcf; cases fp.contractFails <;> simp
        by_cases hco : fp.containerFails = true
        · refine ⟨⟨"instance_error", ?_⟩, ?_, ?_, ?_, ?_, ?_, .inl ?_⟩ <;>
            simp [Hp.create_new_instance, hfresh, not_le.mpr hcount, hvac, hinst, hcf2, hco, h]
        · have hco2 : fp.containerFails = false := by
            revert hco; cases fp.containerFails <;> simp
          refine ⟨⟨"db_write_error", ?_⟩, ?_, ?_, ?_, ?_, ?_, .inl ?_⟩ <;>
            simp [Hp.create_new_instance, hfresh, not_le.mpr hcount, hvac, hinst, hcf2, hco2, h]

/-- C10 witness: a create failing at the database insert from a state with
one vacant slot uninstalls the user, removes the container, and leaves the
instance table, vacant list and last-assigned tuple unchanged. -/
theorem C10_failed_create_rollback_witness :
    (∃ e : String,
      (Hp.create_new_instance ⟨22861, 36525, 39064, 3⟩ ⟨22861, 26201, 36525, 39064⟩
        { installFails := false, contractFails := false, containerFails := false,
          insertFails := true } true "A"
        { instances := [], vacant_ports := [⟨22861, 26201, 36525, 39064⟩],
          last_assigned_ports := ⟨22861, 26201, 36525, 39064⟩,
          last_port_assign_from_vacant := false }).result = .error e) ∧
    Hp.HpEffect.installUser ∈
      (Hp.create_new_instance ⟨22861, 36525, 39064, 3⟩ ⟨22861, 26201, 36525, 39064⟩
        { installFails := false, contractFails := false, containerFails := false,
          insertFails := true } true "A"
        { instances := [], vacant_ports := [⟨22861, 26201, 36525, 39064⟩],
          last_assigned_ports := ⟨22861, 26201, 36525, 39064⟩,
          last_port_assign_from_vacant := false }).effects ∧
    Hp.HpEffect.uninstallUser ∈
      (Hp.create_new_instance ⟨22861, 36525, 39064, 3⟩ ⟨22861, 26201, 36525, 39064⟩
        { installFails := false, contractFails := false, containerFails := false,
          insertFails := true } true "A"
        { instances := [], vacant_ports := [⟨22861, 26201, 36525, 39064⟩],
          last_assigned_ports := ⟨22861, 26201, 36525, 39064⟩,
          last_port_assign_from_vacant := false }).effects ∧
    ((false : Bool) = false → (false : Bool) = false →
      Hp.HpEffect.dockerRemove ∈
        (Hp.create_new_instance ⟨22861, 36525, 39064, 3⟩ ⟨22861, 26201, 36525, 39064⟩
          { installFails := false, contractFails := false, containerFails := false,
            insertFails := true } true "A"
          { instances := [], vacant_ports := [⟨22861, 26201, 36525, 39064⟩],
            last_assigned_ports := ⟨22861, 26201, 36525, 39064⟩,
            last_port_assign_from_vacant := false }).effects) ∧
    (Hp.create_new_instance ⟨22861, 36525, 39064, 3⟩ ⟨22861, 26201, 36525, 39064⟩
        { installFails := false, contractFails := false, containerFails := false,
          insertFails := true } true "A"
        { instances := [], vacant_ports := [⟨22861, 26201, 36525, 39064⟩],
          last_assigned_ports := ⟨22861, 26201, 36525, 39064⟩,
          last_port_assign_from_vacant := false }).state.instances = [] ∧
    (Hp.create_new_instance ⟨22861, 36525, 39064, 3⟩ ⟨22861, 26201, 36525, 39064⟩
        { installFails := false, contractFails := false, containerFails := false,
          insertFails := true } true "A"
        { instances := [], vacant_ports := [⟨22861, 26201, 36525, 39064⟩],
          last_assigned_ports := ⟨22861, 26201, 36525, 39064⟩,
          last_port_assign_from_vacant := false }).state.vacant_ports =
      [⟨22861, 26201, 36525, 39064⟩] ∧
    ((Hp.create_new_instance ⟨22861, 36525, 39064, 3⟩ ⟨22861, 26201, 36525, 39064⟩
        { installFails := false, contractFails := false, containerFails := false,
          insertFails := true } true "A"
        { instances := [], vacant_ports := [⟨22861, 26201, 36525, 39064⟩],
          last_assigned_ports := ⟨22861, 26201, 36525, 39064⟩,
          last_port_assign_from_vacant := false }).state.last_assigned_ports =
        ⟨22861, 26201, 36525, 39064⟩ ∨
      ([⟨22861, 26201, 36525, 39064⟩] = ([] : List Hp.Ports) ∧ (false : Bool) = true ∧
        (Hp.create_new_instance ⟨22861, 36525, 39064, 3⟩ ⟨22861, 26201, 36525, 39064⟩
          { installFails := false, contractFails := false, containerFails := false,
            insertFails := true } true "A"
          { instances := [], vacant_ports := [⟨22861, 26201, 36525, 39064⟩],
            last_assigned_ports := ⟨22861, 26201, 36525, 39064⟩,
            last_port_assign_from_vacant := false }).state.last_assigned_ports =
          ⟨22861, 26201, 36525, 39064⟩)) :=
  C10_failed_create_rollback ⟨22861, 36525, 39064, 3⟩ ⟨22861, 26201, 36525, 39064⟩
    { installFails := false, contractFails := false, containerFails := false,
      insertFails := true } "A"
    { instances := [], vacant_ports := [⟨22861, 26201, 36525, 39064⟩],
      last_assigned_ports := ⟨22861, 26201, 36525, 39064⟩,
      last_port_assign_from_vacant := false }
    (by decide) (by decide) (by decide) (by decide)

/-- C1: the claim that the acquire timeout paths refund the tenant is
false.  With a 100 s window and the daemon busy for 41 s (past the 40 %
gate), the handler marks the lease `SashiTimeout`, creates no instance and
re-offers the slot, but performs no funds-returning submission (no
`refundTenant`, no `acquireError`); likewise when create completes at 81 s
(past the 80 % gate) the instance is destroyed and the slot re-offered
with no funds-returning submission. -/
theorem C1_timeout_no_refund_counterexample :
    Acquire.handleAcquireLease
        { cfgAddress := "rHOST", uriToken := some ("rTENANT", ⟨2, 0⟩),
          leaseAcquireWindow := 100, waitDiff := 41, createDiff := 0,
          createOk := true, createFailIsInitiateError := false }
        { acquireRefId := "TX1", uriTokenId := "T1", leaseAmount := 2,
          tenant := "rTENANT", host := "rHOST", ledgerIndex := 5 } =
      [.updateLastIndex 5, .createLeaseRecord "TX1" "rTENANT" "T1" 1,
       .setLeaseStatus "TX1" .SashiTimeout, .recreateLeaseOffer "T1" 0] ∧
    (Acquire.handleAcquireLease
        { cfgAddress := "rHOST", uriToken := some ("rTENANT", ⟨2, 0⟩),
          leaseAcquireWindow := 100, waitDiff := 41, createDiff := 0,
          createOk := true, createFailIsInitiateError := false }
        { acquireRefId := "TX1", uriTokenId := "T1", leaseAmount := 2,
          tenant := "rTENANT", host := "rHOST", ledgerIndex := 5 }).all
      (fun e => !e.returnsFunds) = true ∧
    (Acquire.handleAcquireLease
        { cfgAddress := "rHOST", uriToken := some ("rTENANT", ⟨2, 0⟩),
          leaseAcquireWindow := 100, waitDiff := 10, createDiff := 81,
          createOk := true, createFailIsInitiateError := false }
        { acquireRefId := "TX1", uriTokenId := "T1", leaseAmount := 2,
          tenant := "rTENANT", host := "rHOST", ledgerIndex := 5 }).all
      (fun e => !e.returnsFunds) = true := by
  have h40 : Acquire.ACQUIRE_LEASE_WAIT_TIMEOUT_THRESHOLD * (100 : Rat) < 41 := by
    norm_num [Acquire.ACQUIRE_LEASE_WAIT_TIMEOUT_THRESHOLD]
  have h40n : ¬ Acquire.ACQUIRE_LEASE_WAIT_TIMEOUT_THRESHOLD * (100 : Rat) < 10 := by
    norm_num [Acquire.ACQUIRE_LEASE_WAIT_TIMEOUT_THRESHOLD]
  have h80 : Acquire.ACQUIRE_LEASE_TIMEOUT_THRESHOLD * (100 : Rat) < 81 := by
    norm_num [Acquire.ACQUIRE_LEASE_TIMEOUT_THRESHOLD]
  refine ⟨?_, ?_, ?_⟩ <;>
    simp [Acquire.handleAcquireLease, Acquire.Effect.returnsFunds, h40, h40n, h80]

/-- C1 (amended): for every acquire event that passes validation, if the
wait for the daemon exceeds 40 % of the acquire window the lease row is
set to `SashiTimeout`, no instance is created, and the lease slot is
re-offered (burn and re-offer; the reconciler submits no refund
transaction); if the daemon create succeeds but total elapsed time exceeds
80 % of the window, the lease row is set to `SashiTimeout`, the created
instance is destroyed (the row then marked `Destroyed`), and the slot is
re-offered, again with no refund transaction submitted. -/
theorem C1_acquire_timeout_paths (env : Acquire.AcquireEnv)
    (ev : Acquire.AcquireEvent) (uri : Acquire.UriInfo)
    (htok : env.uriToken = some (ev.tenant, uri))
    (hhost : ev.host = env.cfgAddress)
    (hamt : ev.leaseAmount = uri.leaseAmount) :
    (Acquire.ACQUIRE_LEASE_WAIT_TIMEOUT_THRESHOLD * env.leaseAcquireWindow < env.waitDiff →
      Acquire.handleAcquireLease env ev =
        [.updateLastIndex ev.ledgerIndex,
         .createLeaseRecord ev.acquireRefId ev.tenant ev.uriTokenId 1,
         .setLeaseStatus ev.acquireRefId .SashiTimeout,
         .recreateLeaseOffer ev.uriTokenId uri.leaseIndex] ∧
      (Acquire.handleAcquireLease env ev).all (fun e => !e.returnsFunds) = true) ∧
    (¬ Acquire.ACQUIRE_LEASE_WAIT_TIMEOUT_THRESHOLD * env.leaseAcquireWindow < env.waitDiff →
      env.createOk = true →
      Acquire.ACQUIRE_LEASE_TIMEOUT_THRESHOLD * env.leaseAcquireWindow < env.createDiff →
      Acquire.handleAcquireLease env ev =
        [.updateLastIndex ev.ledgerIndex,
         .createLeaseRecord ev.acquireRefId ev.tenant ev.uriTokenId 1,
         .cliCreateInstance ev.uriTokenId,
         .setLeaseStatus ev.acquireRefId .SashiTimeout,
         .cliDestroyInstance ev.uriTokenId,
         .setLeaseStatus ev.acquireRefId .Destroyed,
         .recreateLeaseOffer ev.uriTokenId uri.leaseIndex] ∧
      (Acquire.handleAcquireLease env ev).all (fun e => !e.returnsFunds) = true) := by
  constructor
  · intro h40
    have htrace : Acquire.handleAcquireLease env ev =
        [.updateLastIndex ev.ledgerIndex,
         .createLeaseRecord ev.acquireRefId ev.tenant ev.uriTokenId 1,
         .setLeaseStatus ev.acquireRefId .SashiTimeout,
         .recreateLeaseOffer ev.uriTokenId uri.leaseIndex] := by
      simp [Acquire.handleAcquireLease, htok, hhost, hamt, h40]
    rw [htrace]
    exact ⟨rfl, by simp [Acquire.Effect.returnsFunds]⟩
  · intro h40 hok h80
    have htrace : Acquire.handleAcquireLease env ev =
        [.updateLastIndex ev.ledgerIndex,
         .createLeaseRecord ev.acquireRefId ev.tenant ev.uriTokenId 1,
         .cliCreateInstance ev.uriTokenId,
         .setLeaseStatus ev.acquireRefId .SashiTimeout,
         .cliDestroyInstance ev.uriTokenId,
         .setLeaseStatus ev.acquireRefId .Destroyed,
         .recreateLeaseOffer ev.uriTokenId uri.leaseIndex] := by
      simp [Acquire.handleAcquireLease, htok, hhost, hamt, h40, hok, h80]
    rw [htrace]
    exact ⟨rfl, by simp [Acquire.Effect.returnsFunds]⟩

/-- C1 witness: the two timeout paths at a concrete event with window
100 s — daemon busy 41 s, and create completing at 81 s. -/
theorem C1_acquire_timeout_paths_witness :
    Acquire.handleAcquireLease
        { cfgAddress := "rHOST", uriToken := some ("rTENANT", ⟨2, 3⟩),
          leaseAcquireWindow := 100, waitDiff := 50, createDiff := 0,
          createOk := true, createFailIsInitiateError := false }
        { acquireRefId := "TX2", uriTokenId := "T2", leaseAmount := 2,
          tenant := "rTENANT", host := "rHOST", ledgerIndex := 9 } =
      [.updateLastIndex 9, .createLeaseRecord "TX2" "rTENANT" "T2" 1,
       .setLeaseStatus "TX2" .SashiTimeout, .recreateLeaseOffer "T2" 3] ∧
    Acquire.handleAcquireLease
        { cfgAddress := "rHOST", uriToken := some ("rTENANT", ⟨2, 3⟩),
          leaseAcquireWindow := 100, waitDiff := 10, createDiff := 90,
          createOk := true, createFailIsInitiateError := false }
        { acquireRefId := "TX2", uriTokenId := "T2", leaseAmount := 2,
          tenant := "rTENANT", host := "rHOST", ledgerIndex := 9 } =
      [.updateLastIndex 9, .createLeaseRecord "TX2" "rTENANT" "T2" 1,
       .cliCreateInstance "T2", .setLeaseStatus "TX2" .SashiTimeout,
       .cliDestroyInstance "T2", .setLeaseStatus "TX2" .Destroyed,
       .recreateLeaseOffer "T2" 3] := by
  constructor
  · exact ((C1_acquire_timeout_paths
      { cfgAddress := "rHOST", uriToken := some ("rTENANT", ⟨2, 3⟩),
        leaseAcquireWindow := 100, waitDiff := 50, createDiff := 0,
        createOk := true, createFailIsInitiateError := false }
      { acquireRefId := "TX2", uriTokenId := "T2", leaseAmount := 2,
        tenant := "rTENANT", host := "rHOST", ledgerIndex := 9 }
      ⟨2, 3⟩ rfl rfl rfl).1
      (by norm_num [Acquire.ACQUIRE_LEASE_WAIT_TIMEOUT_THRESHOLD])).1
  · exact ((C1_acquire_timeout_paths
      { cfgAddress := "rHOST", uriToken := some ("rTENANT", ⟨2, 3⟩),
        leaseAcquireWindow := 100, waitDiff := 10, createDiff := 90,
        createOk := true, createFailIsInitiateError := false }
      { acquireRefId := "TX2", uriTokenId := "T2", leaseAmount := 2,
        tenant := "rTENANT", host := "rHOST", ledgerIndex := 9 }
      ⟨2, 3⟩ rfl rfl rfl).2
      (by norm_num [Acquire.ACQUIRE_LEASE_WAIT_TIMEOUT_THRESHOLD]) rfl
      (by norm_num [Acquire.ACQUIRE_LEASE_TIMEOUT_THRESHOLD])).1

set_option maxRecDepth 100000 in
/-- C6: the claim that in S6 the halted flag clears at t=285 s is false:
the code measures the halt from the last tick before the halt (t=59 s),
so the grace scheduled at the t=240 s check is 0.25 x 181 s = 45.25 s and
the flag is still set at t=285 s, clearing only at t=285.25 s (the other
S6 assertions hold: halted at t=120 s, and the quarter-ms deadline
4 x 240000 + 181000 = 1141000 corresponds to 285.25 s). -/
theorem C6_s6_clear_time_counterexample :
    Halt.haltedAtS6 120000 = true ∧
    Halt.haltedAtS6 285000 = true ∧
    Halt.haltedAtS6 285249 = true ∧
    Halt.haltedAtS6 285250 = false ∧
    (Halt.runHalt Halt.initS6
        (Halt.eventsS6.filter (fun e => decide (e.time ≤ 285000)))).graceDeadlineQms =
      some 1141000 := by
  refine ⟨by decide, by decide, by decide, by decide, by decide⟩

set_option maxRecDepth 100000 in
/-- C6 (amended): the detector marks the ledger halted when the time since
the last tick reaches `halt_timeout` (60 s), recording the halt onset as
the time of the last tick; once ticks resume, a grace of 25 % of the
elapsed halt (measured from that last tick to the resume-time check) is
scheduled, after which the flag clears, and a new halt during the grace
cancels the pending clear.  In S6, halted is true at t=120 s and clears at
t=285.25 s — not 285 s — because the halt is measured from the last tick
at t=59 s (grace 0.25 x 181 s = 45.25 s after the t=240 s check). -/
theorem C6_halt_detector_behaviour (s : Halt.HaltState) (t : Int)
    (h1 : s.halted = false)
    (h2 : Halt.haltTimeout * 1000 ≤ t - s.lastLedgerTime) :
    ((Halt.checkLedgersForHalt t s).halted = true ∧
     (Halt.checkLedgersForHalt t s).lastHaltedTime = s.lastLedgerTime) ∧
    (∀ s2 : Halt.HaltState, s2.halted = true → s2.graceDeadlineQms ≠ none →
      Halt.haltTimeout * 1000 ≤ t - s2.lastLedgerTime →
      (Halt.checkLedgersForHalt t s2).graceDeadlineQms = none) ∧
    (∀ s3 : Halt.HaltState, s3.halted = true → s3.graceDeadlineQms = none →
      t - s3.lastLedgerTime < Halt.haltTimeout * 1000 →
      (Halt.checkLedgersForHalt t s3).graceDeadlineQms =
        some (4 * t + (t - s3.lastHaltedTime)) ∧
      ((4 * t + (t - s3.lastHaltedTime) : Int) : Rat) / 4 =
        (t : Rat) + ((t : Rat) - (s3.lastHaltedTime : Rat)) * Halt.graceThreshold) ∧
    (Halt.haltedAtS6 120000 = true ∧ Halt.haltedAtS6 285000 = true ∧
     Halt.haltedAtS6 285250 = false) := by
  refine ⟨?_, ?_, ?_, by decide, by decide, by decide⟩
  · have hno : ¬ s.halted = true := by simp [h1]
    constructor <;> simp [Halt.checkLedgersForHalt, h1, h2, not_lt.mpr h2, hno]
  · intro s2 hh hg hd
    simp [Halt.checkLedgersForHalt, hh, hg, hd, not_lt.mpr hd]
  · intro s3 hh hg hd
    constructor
    · simp [Halt.checkLedgersForHalt, hh, hg, hd, not_le.mpr hd]
    · rw [Halt.graceThreshold]
      push_cast
      ring

/-- C6 witness: marking at a fresh halt — at t=120000 ms with the last tick
at 59000 ms the detector sets halted and records onset 59000; cancelling —
a later over-threshold check clears a pending grace; scheduling — a check
during resumed ticks schedules the quarter-ms deadline. -/
theorem C6_halt_detector_behaviour_witness :
    ((Halt.checkLedgersForHalt 120000
        { lastLedgerTime := 59000, halted := false, lastHaltedTime := 0,
          graceDeadlineQms := none }).halted = true ∧
     (Halt.checkLedgersForHalt 120000
        { lastLedgerTime := 59000, halted := false, lastHaltedTime := 0,
          graceDeadlineQms := none }).lastHaltedTime = 59000) ∧
    (∀ s2 : Halt.HaltState, s2.halted = true → s2.graceDeadlineQms ≠ none →
      Halt.haltTimeout * 1000 ≤ 120000 - s2.lastLedgerTime →
      (Halt.checkLedgersForHalt 120000 s2).graceDeadlineQms = none) ∧
    (∀ s3 : Halt.HaltState, s3.halted = true → s3.graceDeadlineQms = none →
      120000 - s3.lastLedgerTime < Halt.haltTimeout * 1000 →
      (Halt.checkLedgersForHalt 120000 s3).graceDeadlineQms =
        some (4 * 120000 + (120000 - s3.lastHaltedTime)) ∧
      ((4 * 120000 + (120000 - s3.lastHaltedTime) : Int) : Rat) / 4 =
        ((120000 : Int) : Rat) +
          (((120000 : Int) : Rat) - (s3.lastHaltedTime : Rat)) * Halt.graceThreshold) ∧
    (Halt.haltedAtS6 120000 = true ∧ Halt.haltedAtS6 285000 = true ∧
     Halt.haltedAtS6 285250 = false) :=
  C6_halt_detector_behaviour
    { lastLedgerTime := 59000, halted := false, lastHaltedTime := 0,
      graceDeadlineQms := none } 120000 (by decide) (by decide)

end Sashimono
